import Mathlib

/-!
Verification of the Realtime Relay & Transcript Assembly subsystem of the
SmartShoppingGuideReview repository.

The transcript-assembly side is a shallow embedding of the handler
`handleServerMessage`, the teardown function `endSession`, and the
evaluation-image sampling in `startVideoStreaming`, all from
`src/components/LiveSession.tsx`.  The relay side embeds the active
`wss.on('connection')` handler of `src/server/index.js` (the second
registration, after `wss.removeAllListeners('connection')`).

JavaScript strings become `String`; `Date.now()` and `ctx.currentTime` are
passed in as explicit `Int` parameters; the JavaScript truthiness test
`if (str)` becomes `str ≠ ""` and `if (str.trim())` becomes
`jsTrim str ≠ ""`, where `jsTrim` is a structurally recursive embedding of
`String.prototype.trim` (strip whitespace from both ends).
-/

/-- Drop leading whitespace characters from a character list. -/
def dropLeadingWS : List Char → List Char
  | [] => []
  | c :: cs => if c.isWhitespace then dropLeadingWS cs else c :: cs

/-- Embedding of JavaScript `String.prototype.trim`: strip whitespace from
both ends of the string. -/
def jsTrim (s : String) : String :=
  ⟨(dropLeadingWS (dropLeadingWS s.data).reverse).reverse⟩

/-- Speaker role of a `ChatMessage` (`'user' | 'model'` in `src/types.ts`):
`user` is the trainee, `model` the simulated customer. -/
inductive Role
  | user
  | model
deriving DecidableEq, Repr

/-- `ChatMessage` from `src/types.ts`: one committed utterance. -/
structure ChatMessage where
  role : Role
  text : String
  timestamp : Int
deriving DecidableEq, Repr

/-- The parts of one upstream `serverContent` event read by
`handleServerMessage` in `src/components/LiveSession.tsx`: an optional audio
chunk (only its decoded duration matters to the scheduling logic), the two
optional transcription text deltas, and the `turnComplete` / `interrupted`
flags. -/
structure ServerContent where
  audioDuration : Option Int := none
  outputTranscriptionText : Option String := none
  inputTranscriptionText : Option String := none
  turnComplete : Bool := false
  interrupted : Bool := false
deriving DecidableEq, Repr

/-- The mutable state touched by `handleServerMessage`: the committed
transcript list (`transcripts` React state), the two accumulation buffers
(`currentInputTransRef`, `currentOutputTransRef`), their streaming-subtitle
mirrors (`streamingUserText`, `streamingModelText`), and the audio playback
scheduling cursor (`nextStartTimeRef`). -/
structure SessionState where
  transcripts : List ChatMessage
  currentInputTrans : String
  currentOutputTrans : String
  streamingUserText : String
  streamingModelText : String
  nextStartTime : Int
deriving DecidableEq, Repr

/-- Section "1. Audio Playback" of `handleServerMessage`: schedule the chunk
at `max nextStartTime currentTime` and advance the cursor by its duration. -/
def playAudio (ctxTime : Int) (msg : ServerContent) (s : SessionState) : SessionState :=
  match msg.audioDuration with
  | some dur => { s with nextStartTime := max s.nextStartTime ctxTime + dur }
  | none => s

/-- Section "2. Transcription (Stream Accumulation)" of `handleServerMessage`:
append the output-side delta (if any), then the input-side delta (if any), to
the corresponding buffer and streaming mirror. -/
def accumulate (msg : ServerContent) (s : SessionState) : SessionState :=
  let s :=
    match msg.outputTranscriptionText with
    | some text =>
        { s with currentOutputTrans := s.currentOutputTrans ++ text
                 streamingModelText := s.streamingModelText ++ text }
    | none => s
  match msg.inputTranscriptionText with
  | some text =>
      { s with currentInputTrans := s.currentInputTrans ++ text
               streamingUserText := s.streamingUserText ++ text }
  | none => s

/-- Section "3. Turn Complete (Commit)" of `handleServerMessage`: if
`turnComplete`, commit the input buffer as a `user` utterance when its trim is
non-empty (then clear it), then likewise the output buffer as a `model`
utterance.  A buffer whose trim is empty is left untouched. -/
def commitTurn (now : Int) (msg : ServerContent) (s : SessionState) : SessionState :=
  if msg.turnComplete then
    let s :=
      if jsTrim s.currentInputTrans ≠ "" then
        { s with transcripts := s.transcripts ++ [⟨Role.user, s.currentInputTrans, now⟩]
                 currentInputTrans := ""
                 streamingUserText := "" }
      else s
    if jsTrim s.currentOutputTrans ≠ "" then
      { s with transcripts := s.transcripts ++ [⟨Role.model, s.currentOutputTrans, now⟩]
               currentOutputTrans := ""
               streamingModelText := "" }
    else s
  else s

/-- The interruption marker appended by `handleServerMessage`. -/
def interruptionMarker : String := " (被打断)"

/-- The `serverContent?.interrupted` block of `handleServerMessage`: commit
the output buffer (with the interruption marker appended) when its trim is
non-empty, then unconditionally reset the playback cursor to the current
clock value and clear the output buffer and its streaming mirror. -/
def handleInterrupt (now ctxTime : Int) (msg : ServerContent) (s : SessionState) : SessionState :=
  if msg.interrupted then
    let s :=
      if jsTrim s.currentOutputTrans ≠ "" then
        { s with transcripts :=
            s.transcripts ++ [⟨Role.model, s.currentOutputTrans ++ interruptionMarker, now⟩] }
      else s
    { s with nextStartTime := ctxTime
             currentOutputTrans := ""
             streamingModelText := "" }
  else s

/-- `handleServerMessage` from `src/components/LiveSession.tsx`: the four
sections run in source order on one `serverContent` event.  `now` is
`Date.now()` and `ctxTime` is `ctx.currentTime` at the time of the call. -/
def handleServerMessage (now ctxTime : Int) (msg : ServerContent) (s : SessionState) :
    SessionState :=
  handleInterrupt now ctxTime msg (commitTurn now msg (accumulate msg (playAudio ctxTime msg s)))

/-- Deliver a list of upstream events to `handleServerMessage` in order, all
observed at clock values `now` / `ctxTime`. -/
def deliver (now ctxTime : Int) (msgs : List ServerContent) (s : SessionState) : SessionState :=
  msgs.foldl (fun st m => handleServerMessage now ctxTime m st) s

/-- `endSession` from `src/components/LiveSession.tsx`, restricted to the
history it hands to `onEndSession`: the committed transcripts followed by a
flush of each non-empty buffer (trainee first, then simulated customer).
The emptiness test is JavaScript truthiness of the raw string, without
trimming. -/
def endSession (now : Int) (s : SessionState) : List ChatMessage :=
  let finalHistory := s.transcripts
  let finalHistory :=
    if s.currentInputTrans ≠ "" then
      finalHistory ++ [⟨Role.user, s.currentInputTrans, now⟩]
    else finalHistory
  if s.currentOutputTrans ≠ "" then
    finalHistory ++ [⟨Role.model, s.currentOutputTrans, now⟩]
  else finalHistory

/-- `EVAL_IMAGE_INTERVAL` from `src/components/LiveSession.tsx`. -/
def EVAL_IMAGE_INTERVAL : Int := 3000

/-- `MAX_EVAL_IMAGES` from `src/components/LiveSession.tsx`. -/
def MAX_EVAL_IMAGES : Nat := 10

/-- State of the evaluation-snapshot sampler in `startVideoStreaming`:
`evalImagesRef` and `lastEvalImageTimeRef` (the latter initialised to `0`). -/
structure EvalState where
  evalImages : List String
  lastEvalImageTime : Int
deriving DecidableEq, Repr

/-- The evaluation-image branch of one frame tick in `startVideoStreaming`:
with `now = Date.now()`, push the captured frame and record its time when at
least `EVAL_IMAGE_INTERVAL` ms have elapsed since the last recorded image and
the list is below `MAX_EVAL_IMAGES`. -/
def evalImageStep (now : Int) (base64Data : String) (s : EvalState) : EvalState :=
  if EVAL_IMAGE_INTERVAL ≤ now - s.lastEvalImageTime ∧
      s.evalImages.length < MAX_EVAL_IMAGES then
    { evalImages := s.evalImages ++ [base64Data], lastEvalImageTime := now }
  else s

/-- The sampler state at session start. -/
def initEval : EvalState := ⟨[], 0⟩

/-- Run the sampler over a session's frame ticks (timestamp, captured data). -/
def runEvalImages (frames : List (Int × String)) : EvalState :=
  frames.foldl (fun st f => evalImageStep f.1 f.2 st) initEval

/-!
Relay side: the active connection handler of `src/server/index.js` (the
second `wss.on('connection')` registration; the first is removed by
`wss.removeAllListeners('connection')` before the server starts).

`JSON.parse` of an inbound frame is external: a frame arrives either already
classified as a recognised client message, as a syntactically valid object of
an unrecognised `type` (which falls through the `if`/`else if` chain), or as
malformed text on which `JSON.parse` throws.  The outcome of
`ai.live.connect` is likewise passed in as a function from the instruction to
`Except` (the `catch` branch receives `e.message`).  The `Except` result of
the handler records whether an exception escaped the handler body: the
active handler has no `try`/`catch`, so a `JSON.parse` exception escapes as
an unhandled promise rejection.
-/

/-- A recognised client→relay message after `JSON.parse` succeeds, plus the
fall-through case of a parseable object with an unrecognised `type`.  The
`input` payload is forwarded opaquely to `session.sendRealtimeInput`. -/
inductive ClientMsg
  | startSession (instruction : String)
  | input (payload : String)
  | other (t : String)
deriving DecidableEq, Repr

/-- One raw inbound frame: either `JSON.parse` succeeds giving a
`ClientMsg`, or it throws (malformed JSON). -/
inductive InboundFrame
  | parsed (m : ClientMsg)
  | malformed (raw : String)
deriving DecidableEq, Repr

/-- A message sent to the client over the WebSocket by the active handler or
its upstream callbacks: `{type:'status',status:'open'}`,
`{type:'status',status:'closed'}`, `{type:'gemini',data}`, or
`{type:'error',message}`. -/
inductive OutMsg
  | statusOpen
  | statusClosed
  | gemini (data : String)
  | error (message : String)
deriving DecidableEq, Repr

/-- Per-connection state of the active handler.  `session` is the handler's
`session` variable (an id standing for the object reference); `opened` lists
the ids of upstream sessions created by `ai.live.connect` on behalf of this
connection and never closed (the handler never calls any close on them);
`upstreamSent` records `session.sendRealtimeInput` calls; `sent` records
`ws.send` calls; `logs` records `console.error` calls. -/
structure ConnState where
  session : Option Nat
  opened : List Nat
  upstreamSent : List (Nat × String)
  sent : List OutMsg
  logs : List String
  nextSessionId : Nat
deriving DecidableEq, Repr

/-- Connection state right after `wss.on('connection')` fires:
`let session = null`, nothing opened, sent or logged. -/
def initConn : ConnState := ⟨none, [], [], [], [], 0⟩

/-- The `ws.on('message')` body of the active handler on one frame.
`connect` models `await ai.live.connect(...)`: `Except.ok` when the upstream
session opens (its `onopen` callback immediately sends
`{type:'status',status:'open'}`), `Except.error e` when it throws with
message `e` (then the `catch` logs and sends `{type:'error',message:e}`).
On `start_session` the `session` variable is overwritten without closing any
previous session.  On `input`, `sendRealtimeInput` is called only `if
(session)`.  An unrecognised `type` falls through the `if`/`else if` chain.
A malformed frame makes `JSON.parse` throw before any branch: no log, no
send, and the exception escapes the handler (`Except.error`). -/
def onMessage (connect : String → Except String Unit) (st : ConnState) (f : InboundFrame) :
    Except String ConnState :=
  match f with
  | .malformed raw => .error ("SyntaxError: Unexpected token in JSON: " ++ raw)
  | .parsed m =>
    match m with
    | .startSession instruction =>
        match connect instruction with
        | .ok _ =>
            .ok { st with
                    session := some st.nextSessionId
                    opened := st.opened ++ [st.nextSessionId]
                    sent := st.sent ++ [OutMsg.statusOpen]
                    nextSessionId := st.nextSessionId + 1 }
        | .error e =>
            .ok { st with
                    logs := st.logs ++ ["Gemini connection failed"]
                    sent := st.sent ++ [OutMsg.error e] }
    | .input payload =>
        match st.session with
        | some sid => .ok { st with upstreamSent := st.upstreamSent ++ [(sid, payload)] }
        | none => .ok st
    | .other _ => .ok st

/-- Process a sequence of inbound frames in arrival order, stopping if an
exception escapes the handler. -/
def runMessages (connect : String → Except String Unit) (st : ConnState) :
    List InboundFrame → Except String ConnState
  | [] => .ok st
  | f :: fs =>
    match onMessage connect st f with
    | .ok st' => runMessages connect st' fs
    | .error e => .error e

/-- A mid-stream event delivered through the callbacks the active handler
installs in `ai.live.connect`: `onopen`, `onmessage`, `onclose`, `onerror`. -/
inductive UpstreamEvent
  | uOpen
  | uMessage (data : String)
  | uClose
  | uError (e : String)
deriving DecidableEq, Repr

/-- The callbacks of the active handler (`src/server/index.js`):
`onopen` sends `{type:'status',status:'open'}`, `onmessage` forwards the
event as `{type:'gemini',data}`, `onclose` sends
`{type:'status',status:'closed'}`, and `onerror` only runs
`console.error(e)` — nothing is sent to the client. -/
def onUpstreamEvent (st : ConnState) (ev : UpstreamEvent) : ConnState :=
  match ev with
  | .uOpen => { st with sent := st.sent ++ [OutMsg.statusOpen] }
  | .uMessage d => { st with sent := st.sent ++ [OutMsg.gemini d] }
  | .uClose => { st with sent := st.sent ++ [OutMsg.statusClosed] }
  | .uError e => { st with logs := st.logs ++ [e] }

/-- A `connect` that always succeeds (the upstream service accepts every
`start_session`). -/
def connectOk : String → Except String Unit := fun _ => .ok ()

/-- A `connect` standing for `ai.live.connect` when no credential is
configured: per the spec's adapter contract it refuses to open and throws a
configuration error, whose message the `catch` branch forwards. -/
def connectNoKey : String → Except String Unit :=
  fun _ => .error "Server missing API Key"

/-- Concatenation of a list of text deltas in delivery order (the spec-side
notion "the full concatenation of deltas since the last flush"). -/
def concatAll : List String → String
  | [] => ""
  | d :: ds => d ++ concatAll ds

/-- An upstream event carrying exactly one transcription text delta for the
given role: input-side transcription for the trainee (`user`), output-side
transcription for the simulated customer (`model`). -/
def deltaMsgFor (r : Role) (d : String) : ServerContent :=
  match r with
  | .user => { inputTranscriptionText := some d }
  | .model => { outputTranscriptionText := some d }

/-- A bare turn-complete event. -/
def turnCompleteMsg : ServerContent := { turnComplete := true }

/-- A bare interruption event. -/
def interruptedMsg : ServerContent := { interrupted := true }

/-- The accumulation buffer of the given role. -/
def roleBuf (r : Role) (s : SessionState) : String :=
  match r with
  | .user => s.currentInputTrans
  | .model => s.currentOutputTrans

/-- The committed utterances of the given role, in commit order. -/
def roleUtterances (r : Role) (l : List ChatMessage) : List ChatMessage :=
  l.filter (fun m => m.role == r)

theorem roleUtterances_append (r : Role) (a b : List ChatMessage) :
    roleUtterances r (a ++ b) = roleUtterances r a ++ roleUtterances r b :=
  List.filter_append ..

theorem deliver_deltas_user (now ctxTime : Int) (deltas : List String) (s : SessionState) :
    deliver now ctxTime (deltas.map (deltaMsgFor Role.user)) s =
      { s with currentInputTrans := s.currentInputTrans ++ concatAll deltas
               streamingUserText := s.streamingUserText ++ concatAll deltas } := by
  induction deltas generalizing s with
  | nil => simp [deliver, concatAll]
  | cons d ds ih =>
    simp only [List.map_cons, deliver, List.foldl_cons]
    have hstep :
        handleServerMessage now ctxTime (deltaMsgFor Role.user d) s =
          { s with currentInputTrans := s.currentInputTrans ++ d
                   streamingUserText := s.streamingUserText ++ d } := by
      simp [handleServerMessage, deltaMsgFor, playAudio, accumulate, commitTurn, handleInterrupt]
    rw [hstep]
    have hrest := ih ({ s with currentInputTrans := s.currentInputTrans ++ d
                               streamingUserText := s.streamingUserText ++ d })
    simp only [deliver] at hrest
    rw [hrest]
    simp [concatAll, String.append_assoc]

theorem deliver_deltas_model (now ctxTime : Int) (deltas : List String) (s : SessionState) :
    deliver now ctxTime (deltas.map (deltaMsgFor Role.model)) s =
      { s with currentOutputTrans := s.currentOutputTrans ++ concatAll deltas
               streamingModelText := s.streamingModelText ++ concatAll deltas } := by
  induction deltas generalizing s with
  | nil => simp [deliver, concatAll]
  | cons d ds ih =>
    simp only [List.map_cons, deliver, List.foldl_cons]
    have hstep :
        handleServerMessage now ctxTime (deltaMsgFor Role.model d) s =
          { s with currentOutputTrans := s.currentOutputTrans ++ d
                   streamingModelText := s.streamingModelText ++ d } := by
      simp [handleServerMessage, deltaMsgFor, playAudio, accumulate, commitTurn, handleInterrupt]
    rw [hstep]
    have hrest := ih ({ s with currentOutputTrans := s.currentOutputTrans ++ d
                               streamingModelText := s.streamingModelText ++ d })
    simp only [deliver] at hrest
    rw [hrest]
    simp [concatAll, String.append_assoc]

/-- C1: for every sequence of transcription text deltas for a role delivered
to `handleServerMessage` followed by a turn-complete signal, if the
accumulated text is non-whitespace then exactly one utterance with that role
is committed for that completion, its text the concatenation of all deltas
for that role since the last flush (buffer initially empty) in delivery
order, and the role's buffer is reset to empty afterward. -/
theorem assembler_commits_concatenation_on_turn_complete
    (now ctxTime tNow tCtx : Int) (r : Role) (deltas : List String) (s : SessionState)
    (hflush : roleBuf r s = "")
    (hws : jsTrim (concatAll deltas) ≠ "") :
    roleUtterances r
        (handleServerMessage tNow tCtx turnCompleteMsg
          (deliver now ctxTime (deltas.map (deltaMsgFor r)) s)).transcripts =
      roleUtterances r s.transcripts ++ [⟨r, concatAll deltas, tNow⟩] ∧
    roleBuf r
        (handleServerMessage tNow tCtx turnCompleteMsg
          (deliver now ctxTime (deltas.map (deltaMsgFor r)) s)) = "" := by
  cases r with
  | user =>
    rw [deliver_deltas_user]
    simp only [roleBuf] at hflush
    rw [hflush]
    simp only [handleServerMessage, playAudio, accumulate, commitTurn, handleInterrupt,
      turnCompleteMsg, String.empty_append]
    by_cases hout : jsTrim s.currentOutputTrans = "" <;>
      simp [hws, hout, roleBuf, roleUtterances, List.filter_append]
  | model =>
    rw [deliver_deltas_model]
    simp only [roleBuf] at hflush
    rw [hflush]
    simp only [handleServerMessage, playAudio, accumulate, commitTurn, handleInterrupt,
      turnCompleteMsg, String.empty_append]
    by_cases hin : jsTrim s.currentInputTrans = "" <;>
      simp [hws, hin, roleBuf, roleUtterances, List.filter_append]

/-- Witness for C1: the spec scenario — deltas `"您好"`, `"，请问"` then
turn-complete for the simulated-customer role yield the single utterance
`{role: model, text: "您好，请问"}` and an empty buffer. -/
theorem assembler_commits_concatenation_on_turn_complete_witness :
    roleUtterances Role.model
        (handleServerMessage 9 4 turnCompleteMsg
          (deliver 1 2 (["您好", "，请问"].map (deltaMsgFor Role.model))
            ⟨[], "", "", "", "", 0⟩)).transcripts =
      roleUtterances Role.model [] ++ [⟨Role.model, concatAll ["您好", "，请问"], 9⟩] ∧
    roleBuf Role.model
        (handleServerMessage 9 4 turnCompleteMsg
          (deliver 1 2 (["您好", "，请问"].map (deltaMsgFor Role.model))
            ⟨[], "", "", "", "", 0⟩)) = "" :=
  assembler_commits_concatenation_on_turn_complete 1 2 9 4 Role.model ["您好", "，请问"]
    ⟨[], "", "", "", "", 0⟩ (by decide) (by decide)

/-- C2, counterexample: at a turn-complete where the trainee buffer holds
the whitespace-only string `" "`, no utterance is committed — but the buffer
is NOT cleared to empty as the claim states: it still holds `" "`. -/
theorem turn_complete_whitespace_buffer_counterexample :
    (handleServerMessage 7 0 turnCompleteMsg ⟨[], " ", "", " ", "", 0⟩).transcripts = [] ∧
    (handleServerMessage 7 0 turnCompleteMsg ⟨[], " ", "", " ", "", 0⟩).currentInputTrans
      = " " ∧ (" " : String) ≠ "" := by decide

/-- C2 as amended: for every turn-complete event at which a role's
accumulated buffer is empty or whitespace-only after trimming, no utterance
is committed for that role and the buffer is left unchanged (it is cleared
only in the trivial case that it was already empty; a whitespace-only buffer
retains its content). -/
theorem turn_complete_whitespace_no_commit
    (now ctxTime : Int) (r : Role) (s : SessionState)
    (hws : jsTrim (roleBuf r s) = "") :
    roleUtterances r (handleServerMessage now ctxTime turnCompleteMsg s).transcripts =
      roleUtterances r s.transcripts ∧
    roleBuf r (handleServerMessage now ctxTime turnCompleteMsg s) = roleBuf r s := by
  cases r with
  | user =>
    simp only [roleBuf] at hws ⊢
    simp only [handleServerMessage, playAudio, accumulate, commitTurn, handleInterrupt,
      turnCompleteMsg]
    by_cases hout : jsTrim s.currentOutputTrans = "" <;>
      simp [hws, hout, roleUtterances, List.filter_append]
  | model =>
    simp only [roleBuf] at hws ⊢
    simp only [handleServerMessage, playAudio, accumulate, commitTurn, handleInterrupt,
      turnCompleteMsg]
    by_cases hin : jsTrim s.currentInputTrans = "" <;>
      simp [hws, hin, roleUtterances, List.filter_append]

/-- Witness for the amended C2: whitespace-only trainee buffer `" "` at a
turn-complete commits nothing and keeps the buffer as `" "`. -/
theorem turn_complete_whitespace_no_commit_witness :
    roleUtterances Role.user
        (handleServerMessage 7 0 turnCompleteMsg ⟨[], " ", "", " ", "", 0⟩).transcripts =
      roleUtterances Role.user [] ∧
    roleBuf Role.user (handleServerMessage 7 0 turnCompleteMsg ⟨[], " ", "", " ", "", 0⟩) =
      roleBuf Role.user ⟨[], " ", "", " ", "", 0⟩ :=
  turn_complete_whitespace_no_commit 7 0 Role.user ⟨[], " ", "", " ", "", 0⟩ (by decide)

/-- C3: on an interruption event, the playback cursor is reset to the
current clock value and the simulated-customer buffer to empty; if its trim
was non-empty, exactly one `model` utterance is committed whose text is the
buffered text with the interruption marker appended, and otherwise nothing
is committed. -/
theorem interruption_commits_marked_utterance (now ctxTime : Int) (s : SessionState) :
    (handleServerMessage now ctxTime interruptedMsg s).nextStartTime = ctxTime ∧
    (handleServerMessage now ctxTime interruptedMsg s).currentOutputTrans = "" ∧
    (jsTrim s.currentOutputTrans ≠ "" →
      (handleServerMessage now ctxTime interruptedMsg s).transcripts =
        s.transcripts ++ [⟨Role.model, s.currentOutputTrans ++ interruptionMarker, now⟩]) ∧
    (jsTrim s.currentOutputTrans = "" →
      (handleServerMessage now ctxTime interruptedMsg s).transcripts = s.transcripts) := by
  simp only [handleServerMessage, playAudio, accumulate, commitTurn, handleInterrupt,
    interruptedMsg]
  by_cases hout : jsTrim s.currentOutputTrans = "" <;> simp [hout]

/-- Witness for C3: the spec scenario — interruption arrives with buffered
content `"那这个价格"` ⇒ one utterance with the marker appended, buffer
reset, and the playback cursor reset to the current clock value. -/
theorem interruption_commits_marked_utterance_witness :
    (handleServerMessage 7 3 interruptedMsg ⟨[], "", "那这个价格", "", "那这个价格", 9⟩).nextStartTime
      = 3 ∧
    (handleServerMessage 7 3 interruptedMsg
        ⟨[], "", "那这个价格", "", "那这个价格", 9⟩).currentOutputTrans = "" ∧
    (handleServerMessage 7 3 interruptedMsg ⟨[], "", "那这个价格", "", "那这个价格", 9⟩).transcripts =
      [] ++ [⟨Role.model, "那这个价格" ++ interruptionMarker, 7⟩] := by
  have h := interruption_commits_marked_utterance 7 3 ⟨[], "", "那这个价格", "", "那这个价格", 9⟩
  exact ⟨h.1, h.2.1, h.2.2.1 (by decide)⟩

/-- C4: handling an interruption event touches only the simulated-customer
side: the trainee buffer (and its streaming mirror) is unchanged, and every
already-committed utterance is preserved unchanged in place — the previous
transcript list is a prefix of the new one. -/
theorem interruption_frame_effect (now ctxTime : Int) (s : SessionState) :
    (handleServerMessage now ctxTime interruptedMsg s).currentInputTrans =
      s.currentInputTrans ∧
    (handleServerMessage now ctxTime interruptedMsg s).streamingUserText =
      s.streamingUserText ∧
    List.IsPrefix s.transcripts (handleServerMessage now ctxTime interruptedMsg s).transcripts := by
  simp only [handleServerMessage, playAudio, accumulate, commitTurn, handleInterrupt,
    interruptedMsg]
  by_cases hout : jsTrim s.currentOutputTrans = "" <;> simp [hout, List.prefix_append]

/-- C9: `endSession` hands over the committed transcripts unchanged (as a
prefix) followed by exactly one flush utterance per non-empty buffer —
trainee first, then simulated customer — so nothing buffered is dropped and
no buffer is committed twice. -/
theorem teardown_flushes_buffers (now : Int) (s : SessionState) :
    List.IsPrefix s.transcripts (endSession now s) ∧
    (endSession now s).length =
      s.transcripts.length + (if s.currentInputTrans ≠ "" then 1 else 0) +
        (if s.currentOutputTrans ≠ "" then 1 else 0) ∧
    (s.currentInputTrans ≠ "" →
      roleUtterances Role.user (endSession now s) =
        roleUtterances Role.user s.transcripts ++ [⟨Role.user, s.currentInputTrans, now⟩]) ∧
    (s.currentOutputTrans ≠ "" →
      roleUtterances Role.model (endSession now s) =
        roleUtterances Role.model s.transcripts ++ [⟨Role.model, s.currentOutputTrans, now⟩]) ∧
    (s.currentInputTrans = "" →
      roleUtterances Role.user (endSession now s) = roleUtterances Role.user s.transcripts) ∧
    (s.currentOutputTrans = "" →
      roleUtterances Role.model (endSession now s) = roleUtterances Role.model s.transcripts) := by
  by_cases hi : s.currentInputTrans = "" <;> by_cases ho : s.currentOutputTrans = "" <;>
    simp [endSession, hi, ho, roleUtterances, List.filter_append, List.prefix_append,
      List.append_assoc]

/-- Witness for C9: the spec scenario — abrupt disconnect with non-empty
trainee buffer `"我觉得"` (and a non-empty customer buffer) flushes each as
one final utterance after the committed history. -/
theorem teardown_flushes_buffers_witness :
    List.IsPrefix [ChatMessage.mk Role.model "欢迎" 1]
      (endSession 5 ⟨[⟨Role.model, "欢迎", 1⟩], "我觉得", "嗯", "", "", 0⟩) ∧
    (endSession 5 ⟨[⟨Role.model, "欢迎", 1⟩], "我觉得", "嗯", "", "", 0⟩).length =
      [ChatMessage.mk Role.model "欢迎" 1].length + 1 + 1 ∧
    roleUtterances Role.user (endSession 5 ⟨[⟨Role.model, "欢迎", 1⟩], "我觉得", "嗯", "", "", 0⟩) =
      roleUtterances Role.user [⟨Role.model, "欢迎", 1⟩] ++ [⟨Role.user, "我觉得", 5⟩] ∧
    roleUtterances Role.model (endSession 5 ⟨[⟨Role.model, "欢迎", 1⟩], "我觉得", "嗯", "", "", 0⟩) =
      roleUtterances Role.model [⟨Role.model, "欢迎", 1⟩] ++ [⟨Role.model, "嗯", 5⟩] := by
  have h := teardown_flushes_buffers 5 ⟨[⟨Role.model, "欢迎", 1⟩], "我觉得", "嗯", "", "", 0⟩
  refine ⟨h.1, ?_, h.2.2.1 (by decide), h.2.2.2.1 (by decide)⟩
  have h2 := h.2.1
  simpa using h2

theorem evalImages_length_le_of_foldl (frames : List (Int × String)) (st : EvalState)
    (h : st.evalImages.length ≤ MAX_EVAL_IMAGES) :
    (frames.foldl (fun st f => evalImageStep f.1 f.2 st) st).evalImages.length ≤
      MAX_EVAL_IMAGES := by
  induction frames generalizing st with
  | nil => simpa using h
  | cons f fs ih =>
    simp only [List.foldl_cons]
    apply ih
    unfold evalImageStep
    split
    case isTrue hc => simpa using hc.2
    case isFalse => exact h

/-- C10: over any session run, the evaluation snapshot list holds at most
`MAX_EVAL_IMAGES` (= 10) entries; one tick appends at most one image, never
evicts older ones, and appends only when at least `EVAL_IMAGE_INTERVAL`
(= 3000) ms have elapsed since the previously recorded image and the limit
is not yet reached (the appended image then becomes the new reference
time). -/
theorem eval_images_bounded_and_throttled (frames : List (Int × String)) :
    (runEvalImages frames).evalImages.length ≤ MAX_EVAL_IMAGES ∧
    (∀ (st : EvalState) (now : Int) (d : String),
      List.IsPrefix st.evalImages (evalImageStep now d st).evalImages ∧
      ((evalImageStep now d st).evalImages ≠ st.evalImages →
        EVAL_IMAGE_INTERVAL ≤ now - st.lastEvalImageTime ∧
        st.evalImages.length < MAX_EVAL_IMAGES ∧
        (evalImageStep now d st).evalImages = st.evalImages ++ [d] ∧
        (evalImageStep now d st).lastEvalImageTime = now)) := by
  constructor
  · exact evalImages_length_le_of_foldl frames initEval (by simp [initEval])
  · intro st now d
    unfold evalImageStep
    split
    case isTrue hc =>
      exact ⟨List.prefix_append .., fun _ => ⟨hc.1, hc.2, rfl, rfl⟩⟩
    case isFalse hc =>
      exact ⟨List.prefix_refl _, fun hne => absurd rfl hne⟩

/-- Witness for C10: a first frame at `t = 5000` is recorded (5000 ms have
elapsed since the initial reference time 0), the list stays within the
limit, and the step conditions hold at that input. -/
theorem eval_images_bounded_and_throttled_witness :
    (runEvalImages [(5000, "imgA")]).evalImages.length ≤ MAX_EVAL_IMAGES ∧
    (EVAL_IMAGE_INTERVAL ≤ (5000 : Int) - initEval.lastEvalImageTime ∧
      initEval.evalImages.length < MAX_EVAL_IMAGES ∧
      (evalImageStep 5000 "imgA" initEval).evalImages = initEval.evalImages ++ ["imgA"] ∧
      (evalImageStep 5000 "imgA" initEval).lastEvalImageTime = 5000) := by
  have h := eval_images_bounded_and_throttled [(5000, "imgA")]
  exact ⟨h.1, (h.2 initEval 5000 "imgA").2 (by decide)⟩

/-- C5, evaluation at the failing input: two consecutive `start_session`
frames on one connection (both accepted upstream) leave TWO upstream
sessions opened on behalf of the connection and never closed — the claimed
at-most-one invariant fails because the handler overwrites its `session`
variable without closing the previous session. -/
theorem double_start_session_opens_two_sessions :
    (runMessages connectOk initConn
        [InboundFrame.parsed (ClientMsg.startSession "persona A"),
         InboundFrame.parsed (ClientMsg.startSession "persona B")]).map
      (fun st => st.opened.length) = Except.ok 2 := rfl

/-- C6, evaluation at the failing input: on a frame that is not parseable
JSON, `JSON.parse` throws before any branch of the handler body; the active
handler has no `try`/`catch`, so the exception escapes (an unhandled promise
rejection) — nothing is logged by the handler and no state survives, instead
of the claimed log-and-continue. -/
theorem malformed_frame_exception_escapes :
    onMessage connectOk initConn (InboundFrame.malformed "hello") =
      Except.error "SyntaxError: Unexpected token in JSON: hello" := rfl

/-- C7, evaluation at the failing input: a mid-stream error reported through
the adapter's `onerror` callback is only written to the server log
(`console.error(e)`); the list of messages sent to the client is unchanged —
no `error`-typed message is emitted, contrary to the claim. -/
theorem upstream_error_swallowed_with_local_log :
    onUpstreamEvent ⟨some 0, [0], [], [OutMsg.statusOpen], [], 1⟩
        (UpstreamEvent.uError "boom") =
      ⟨some 0, [0], [], [OutMsg.statusOpen], ["boom"], 1⟩ := rfl

/-- C8: whenever the upstream open call of a `start_session` throws (as it
does, per the adapter contract, when no credential is configured) with a
non-empty message, the client receives exactly one `error`-typed message
carrying that non-empty message, and no upstream session is created for the
connection: the opened list and the `session` variable are unchanged. -/
theorem start_session_connect_failure_reports_error
    (connect : String → Except String Unit) (st : ConnState) (instruction e : String)
    (hfail : connect instruction = Except.error e) (hne : e ≠ "") :
    ∃ st', onMessage connect st (InboundFrame.parsed (ClientMsg.startSession instruction)) =
        Except.ok st' ∧
      st'.sent = st.sent ++ [OutMsg.error e] ∧ e ≠ "" ∧
      st'.opened = st.opened ∧ st'.session = st.session := by
  refine ⟨{ st with logs := st.logs ++ ["Gemini connection failed"]
                    sent := st.sent ++ [OutMsg.error e] }, ?_, rfl, hne, rfl, rfl⟩
  simp [onMessage, hfail]

/-- Witness for C8: the no-credential scenario — the open call throws
`"Server missing API Key"`, the client gets that as an `error` message, and
no upstream session exists for the fresh connection. -/
theorem start_session_connect_failure_reports_error_witness :
    ∃ st', onMessage connectNoKey initConn
        (InboundFrame.parsed (ClientMsg.startSession "你是一位顾客")) = Except.ok st' ∧
      st'.sent = initConn.sent ++ [OutMsg.error "Server missing API Key"] ∧
      ("Server missing API Key" : String) ≠ "" ∧
      st'.opened = initConn.opened ∧ st'.session = initConn.session :=
  start_session_connect_failure_reports_error connectNoKey initConn "你是一位顾客"
    "Server missing API Key" rfl (by decide)
